import Mathlib

/-!
Verification of the transport-medium negotiation and endpoint-identity
subsystem of the `nearby` repository, by a shallow embedding of its C++
sources into Lean 4.

Sources embedded:
* `src/cpp/core/discovery_options.h` — `DiscoveryOptions` and the declaration
  of `CompatibleOptions` (its `.cc` body is absent from the sources, so the
  normalizer and the medium selector are modelled from the spec, §4.2/§4.3,
  and from the header's own doc comment).
* `src/presence/presence_device.cc` — `PresenceDevice` constructors,
  `GenerateRandomEndpointId`, `GetConnectionInfos`.
* `src/internal/platform/credential_storage.cc` — the `CredentialStorage`
  forwarding facade.
-/

namespace Nearby

/-- Topology strategy: one of the three connection topologies
(`core/strategy.h`, modelled per spec §3: POINT_TO_POINT, STAR, CLUSTER). -/
inductive Strategy where
  | kP2pPointToPoint
  | kP2pStar
  | kP2pCluster
deriving DecidableEq, Repr

/-- Modelled from the spec: `MediumSelector<bool>` of `core/medium_selector.h`
(the header is absent from the sources). Spec §3 fixes one boolean field per
supported medium: Bluetooth Classic, BLE, Wi-Fi LAN, Wi-Fi Direct, Wi-Fi
Aware, NFC, WebRTC. -/
structure BooleanMediumSelector where
  bluetooth : Bool
  ble : Bool
  wifi_lan : Bool
  wifi_direct : Bool
  wifi_aware : Bool
  nfc : Bool
  web_rtc : Bool
deriving DecidableEq, Repr

/-- Modelled from the spec: `Count()` — the number of enabled mediums
(spec §4.2). -/
def BooleanMediumSelector.Count (m : BooleanMediumSelector) : Nat :=
  (if m.bluetooth then 1 else 0) + (if m.ble then 1 else 0) +
  (if m.wifi_lan then 1 else 0) + (if m.wifi_direct then 1 else 0) +
  (if m.wifi_aware then 1 else 0) + (if m.nfc then 1 else 0) +
  (if m.web_rtc then 1 else 0)

/-- Modelled from the spec: `Any()` — true if at least one medium is enabled
(spec §4.2). -/
def BooleanMediumSelector.Any (m : BooleanMediumSelector) : Bool :=
  m.bluetooth || m.ble || m.wifi_lan || m.wifi_direct || m.wifi_aware ||
  m.nfc || m.web_rtc

/-- Modelled from the spec: `All()` — true if every medium is enabled
(spec §4.2). -/
def BooleanMediumSelector.All (m : BooleanMediumSelector) : Bool :=
  m.bluetooth && m.ble && m.wifi_lan && m.wifi_direct && m.wifi_aware &&
  m.nfc && m.web_rtc

/-- The selector with every medium enabled (spec §4.3 step 2 fallback). -/
def BooleanMediumSelector.allMediums : BooleanMediumSelector :=
  ⟨true, true, true, true, true, true, true⟩

/-- The selector with exactly Bluetooth Classic enabled (spec §4.3 step 1
fallback). -/
def BooleanMediumSelector.onlyBluetooth : BooleanMediumSelector :=
  ⟨true, false, false, false, false, false, false⟩

/-- `DiscoveryOptions` of `src/cpp/core/discovery_options.h` lines 34-49:
the `OptionsBase` fields (strategy, allowed medium selector, low-power flag,
per spec §3) together with the fields the struct adds. -/
structure DiscoveryOptions where
  strategy : Strategy
  allowed : BooleanMediumSelector
  low_power : Bool
  auto_upgrade_bandwidth : Bool
  enforce_topology_constraints : Bool
  keep_alive_interval_millis : Int
  keep_alive_timeout_millis : Int
  is_out_of_band_connection : Bool
  fast_advertisement_service_uuid : String
deriving DecidableEq, Repr

/-- Modelled from the spec: the body of `DiscoveryOptions::CompatibleOptions`
(declared at `src/cpp/core/discovery_options.h` line 48; the `.cc` body is
absent from the sources). Per the header's doc comment and spec §4.3:
(1) if `is_out_of_band_connection`, exactly one medium must be allowed,
defaulting to only Bluetooth Classic when the count is not one;
(2) otherwise, if no mediums are allowed, allow all mediums;
(3) otherwise pass the selector through unchanged. It returns a copy,
touching only the medium selector. -/
def DiscoveryOptions.CompatibleOptions (o : DiscoveryOptions) : DiscoveryOptions :=
  if o.is_out_of_band_connection then
    if o.allowed.Count = 1 then o
    else { o with allowed := BooleanMediumSelector.onlyBluetooth }
  else
    if o.allowed.Count = 0 then { o with allowed := BooleanMediumSelector.allMediums }
    else o

/-- Modelled from the spec: `kEndpointIdLength` (declared in
`presence/presence_device.h`, absent from the sources): the fixed length, in
bytes, of the random endpoint id (spec §3: "a fixed-length random string"). -/
def kEndpointIdLength : Nat := 4

/-- Modelled from the spec: `DeviceMetadata` — caller-supplied device
metadata, which "includes at least a Bluetooth MAC address" (spec §3); the
source `src/presence/presence_device.cc` reads only
`bluetooth_mac_address()`. -/
structure DeviceMetadata where
  bluetooth_mac_address : String
deriving DecidableEq, Repr

/-- Modelled from the spec: `DeviceMotion` of `presence/device_motion.h`
(absent from the sources) — a device-motion snapshot whose
default-constructed value `DeviceMotion()` is the neutral/unknown motion
(spec §3). -/
structure DeviceMotion where
  motion_type : Nat
  confidence : Nat
deriving DecidableEq, Repr

/-- The neutral default motion value `DeviceMotion()` (spec §3: "defaults to
a neutral/unknown motion value"). -/
def DeviceMotion.neutral : DeviceMotion := ⟨0, 0⟩

/-- The ambient world a `PresenceDevice` constructor reads: the monotonic
clock `SystemClock::ElapsedRealtime()` and the cryptographically-random byte
source `crypto::RandBytes` (both external capabilities per spec §4.4; a byte
string is modelled as a list of naturals). -/
structure Env where
  elapsedRealtime : Nat
  randBytesSource : Nat → List Nat

/-- `SystemClock::ElapsedRealtime()` — one monotonic clock reading from the
ambient world (`src/presence/presence_device.cc` lines 35 and 42). -/
def SystemClock.ElapsedRealtime (env : Env) : Nat :=
  env.elapsedRealtime

/-- `crypto::RandBytes(n)` — a draw of `n` random bytes from the ambient
world's random source (`src/presence/presence_device.cc` line 30). -/
def crypto.RandBytes (env : Env) (n : Nat) : List Nat :=
  env.randBytesSource n

/-- `GenerateRandomEndpointId` of `src/presence/presence_device.cc` lines
29-31: `return crypto::RandBytes(kEndpointIdLength);`. -/
def GenerateRandomEndpointId (env : Env) : List Nat :=
  crypto.RandBytes env kEndpointIdLength

/-- The `PresenceDevice` identity record: discovery timestamp, device motion,
device metadata and endpoint id (the four fields initialized by the
constructors in `src/presence/presence_device.cc` lines 34-46). -/
structure PresenceDevice where
  discovery_timestamp : Nat
  device_motion : DeviceMotion
  device_metadata : DeviceMetadata
  endpoint_id : List Nat
deriving DecidableEq, Repr

/-- The one-argument constructor `PresenceDevice(DeviceMetadata)` of
`src/presence/presence_device.cc` lines 34-39: captures a clock reading,
default-constructs the motion, stores the metadata and draws a fresh random
endpoint id. The ambient world is passed explicitly. -/
def PresenceDevice.construct1 (env : Env) (device_metadata : DeviceMetadata) :
    PresenceDevice :=
  { discovery_timestamp := SystemClock.ElapsedRealtime env
    device_motion := DeviceMotion.neutral
    device_metadata := device_metadata
    endpoint_id := GenerateRandomEndpointId env }

/-- The two-argument constructor `PresenceDevice(DeviceMotion,
DeviceMetadata)` of `src/presence/presence_device.cc` lines 40-46. -/
def PresenceDevice.construct2 (env : Env) (device_motion : DeviceMotion)
    (device_metadata : DeviceMetadata) : PresenceDevice :=
  { discovery_timestamp := SystemClock.ElapsedRealtime env
    device_motion := device_motion
    device_metadata := device_metadata
    endpoint_id := GenerateRandomEndpointId env }

/-- `BleConnectionInfo` of `internal/platform/ble_connection_info.h` (header
absent from the sources): the BLE connection info carries the MAC address it
is constructed from, as used at `src/presence/presence_device.cc` lines
50-51. -/
structure BleConnectionInfo where
  mac_address : String
deriving DecidableEq, Repr

/-- `ConnectionInfoVariant` — the variant of transport-specific connection
infos; the sources build only the BLE alternative. -/
inductive ConnectionInfoVariant where
  | ble (info : BleConnectionInfo)
deriving DecidableEq, Repr

/-- `PresenceDevice::GetConnectionInfos` of `src/presence/presence_device.cc`
lines 48-52: returns a one-element list holding a `BleConnectionInfo` built
from the metadata's Bluetooth MAC address. A `const` method: a pure function
of the record. -/
def PresenceDevice.GetConnectionInfos (d : PresenceDevice) :
    List ConnectionInfoVariant :=
  [ConnectionInfoVariant.ble ⟨d.device_metadata.bluetooth_mac_address⟩]

/-- The observations the device-identity external surface exposes (spec §6:
read accessors for EndpointId, discovery timestamp, device motion, device
metadata, and the connection-info projection; no setters). -/
inductive DeviceObservation where
  | endpointId
  | discoveryTimestamp
  | deviceMotion
  | deviceMetadata
  | connectionInfos
deriving DecidableEq, Repr

/-- The value an observation yields. -/
inductive ObsValue where
  | bytes (b : List Nat)
  | time (t : Nat)
  | motion (m : DeviceMotion)
  | metadata (md : DeviceMetadata)
  | infos (l : List ConnectionInfoVariant)
deriving DecidableEq, Repr

/-- Modelled from the spec: the read accessors of `presence_device.h` (absent
from the sources; spec §6 lists them, with no setters). Each accessor is a
`const` read of a stored field; none reads the ambient world `cur` — the
clock is consulted only inside the constructors, so the translation ignores
`cur`. -/
def PresenceDevice.observe (cur : Env) (d : PresenceDevice) :
    DeviceObservation → ObsValue
  | DeviceObservation.endpointId => ObsValue.bytes d.endpoint_id
  | DeviceObservation.discoveryTimestamp => ObsValue.time d.discovery_timestamp
  | DeviceObservation.deviceMotion => ObsValue.motion d.device_motion
  | DeviceObservation.deviceMetadata => ObsValue.metadata d.device_metadata
  | DeviceObservation.connectionInfos => ObsValue.infos d.GetConnectionInfos

/-- Modelled from the spec: `PrivateCredential` — an opaque credential blob
(spec §3: "opaque, versioned blobs"). -/
structure PrivateCredential where
  blob : List Nat
deriving DecidableEq, Repr

/-- Modelled from the spec: `PublicCredential` — an opaque credential blob. -/
structure PublicCredential where
  blob : List Nat
deriving DecidableEq, Repr

/-- Modelled from the spec: `api::PublicCredentialType` — the type scoping a
public credential. -/
inductive PublicCredentialType where
  | localPublicCredential
  | remotePublicCredential
deriving DecidableEq, Repr

/-- Modelled from the spec: `api::CredentialSelector` — the key a fetch is
scoped by (spec §3: "keyed by account_name + a CredentialSelector"). -/
structure CredentialSelector where
  account_name : String
deriving DecidableEq, Repr

/-- One invocation of an operation of the injected `CredentialStorage`
implementation, with the exact arguments it was passed. Callbacks are opaque
handles, identified by a number. -/
inductive ImplCall where
  | savePrivate (account_name : String)
      (private_credentials : List PrivateCredential) (callback : Nat)
  | savePublic (account_name : String)
      (public_credentials : List PublicCredential)
      (public_credential_type : PublicCredentialType) (callback : Nat)
  | getPrivate (credential_selector : CredentialSelector) (callback : Nat)
  | getPublic (credential_selector : CredentialSelector)
      (public_credential_type : PublicCredentialType) (callback : Nat)
deriving DecidableEq, Repr

/-- The interface of the injected implementation `impl_` held by
`CredentialStorage` (declared in `internal/platform/credential_storage.h`,
absent from the sources): four operations, each an arbitrary effect on a
state of type `σ`. -/
structure CredentialStorageImpl (σ : Type) where
  SavePrivateCredentials : String → List PrivateCredential → Nat → σ → σ
  SavePublicCredentials : String → List PublicCredential →
      PublicCredentialType → Nat → σ → σ
  GetPrivateCredentials : CredentialSelector → Nat → σ → σ
  GetPublicCredentials : CredentialSelector → PublicCredentialType → Nat →
      σ → σ

/-- `CredentialStorage` of `src/internal/platform/credential_storage.cc`:
the facade holding the injected implementation `impl_`. -/
structure CredentialStorage (σ : Type) where
  impl_ : CredentialStorageImpl σ

/-- `CredentialStorage::SavePrivateCredentials` (lines 23-29): forwards to
`impl_->SavePrivateCredentials(account_name, private_credentials,
callback)`. -/
def CredentialStorage.SavePrivateCredentials {σ : Type}
    (cs : CredentialStorage σ) (account_name : String)
    (private_credentials : List PrivateCredential) (callback : Nat) :
    σ → σ :=
  cs.impl_.SavePrivateCredentials account_name private_credentials callback

/-- `CredentialStorage::SavePublicCredentials` (lines 31-37): forwards to
`impl_->SavePublicCredentials(account_name, public_credentials,
public_credential_type, callback)`. -/
def CredentialStorage.SavePublicCredentials {σ : Type}
    (cs : CredentialStorage σ) (account_name : String)
    (public_credentials : List PublicCredential)
    (public_credential_type : PublicCredentialType) (callback : Nat) :
    σ → σ :=
  cs.impl_.SavePublicCredentials account_name public_credentials
    public_credential_type callback

/-- `CredentialStorage::GetPrivateCredentials` (lines 39-43): forwards to
`impl_->GetPrivateCredentials(credential_selector, callback)`. -/
def CredentialStorage.GetPrivateCredentials {σ : Type}
    (cs : CredentialStorage σ) (credential_selector : CredentialSelector)
    (callback : Nat) : σ → σ :=
  cs.impl_.GetPrivateCredentials credential_selector callback

/-- `CredentialStorage::GetPublicCredentials` (lines 45-51): forwards to
`impl_->GetPublicCredentials(credential_selector, public_credential_type,
callback)`. -/
def CredentialStorage.GetPublicCredentials {σ : Type}
    (cs : CredentialStorage σ) (credential_selector : CredentialSelector)
    (public_credential_type : PublicCredentialType) (callback : Nat) :
    σ → σ :=
  cs.impl_.GetPublicCredentials credential_selector public_credential_type
    callback

/-- An instrumented implementation that records every invocation it receives,
with its arguments, in order. Used to observe how often and with which
arguments the facade invokes the injected implementation. -/
def recordingImpl : CredentialStorageImpl (List ImplCall) :=
  { SavePrivateCredentials := fun a p c s => s ++ [ImplCall.savePrivate a p c]
    SavePublicCredentials := fun a p t c s => s ++ [ImplCall.savePublic a p t c]
    GetPrivateCredentials := fun sel c s => s ++ [ImplCall.getPrivate sel c]
    GetPublicCredentials := fun sel t c s => s ++ [ImplCall.getPublic sel t c] }

/-!
Helper lemmas.
-/

/-- The Bluetooth-Classic-only fallback selector enables exactly one
medium. -/
theorem onlyBluetooth_count : BooleanMediumSelector.onlyBluetooth.Count = 1 := by
  decide

/-- The all-mediums selector enables all seven mediums. -/
theorem allMediums_count : BooleanMediumSelector.allMediums.Count = 7 := by
  decide

/-- The all-mediums selector satisfies `All()`. -/
theorem allMediums_all : BooleanMediumSelector.allMediums.All = true := by
  decide

/-!
Claims about `DiscoveryOptions::CompatibleOptions`.
-/

/-- C1: for every strategy and medium selector, if `is_out_of_band_connection`
is true then `CompatibleOptions` returns an options value whose selector
enables exactly one medium: an input selector with exactly one medium enabled
is returned unchanged, and otherwise the result enables Bluetooth Classic
only, all other mediums disabled. -/
theorem compatibleOptions_out_of_band (o : DiscoveryOptions)
    (h : o.is_out_of_band_connection = true) :
    (o.CompatibleOptions).allowed.Count = 1 ∧
    (o.allowed.Count = 1 → o.CompatibleOptions = o) ∧
    (o.allowed.Count ≠ 1 →
      (o.CompatibleOptions).allowed = BooleanMediumSelector.onlyBluetooth) := by
  unfold DiscoveryOptions.CompatibleOptions
  rw [h]
  by_cases hc : o.allowed.Count = 1 <;> simp [hc, onlyBluetooth_count]

/-- Witness for C1 at a concrete out-of-band options value with two mediums
enabled. -/
theorem compatibleOptions_out_of_band_witness :
    (⟨Strategy.kP2pPointToPoint, ⟨true, true, false, false, false, false, false⟩,
        false, true, true, 5000, 30000, true, ""⟩ :
      DiscoveryOptions).is_out_of_band_connection = true ∧
    ((⟨Strategy.kP2pPointToPoint, ⟨true, true, false, false, false, false, false⟩,
        false, true, true, 5000, 30000, true, ""⟩ :
      DiscoveryOptions).CompatibleOptions.allowed.Count = 1 ∧
     ((⟨Strategy.kP2pPointToPoint, ⟨true, true, false, false, false, false, false⟩,
        false, true, true, 5000, 30000, true, ""⟩ :
      DiscoveryOptions).allowed.Count = 1 →
      (⟨Strategy.kP2pPointToPoint, ⟨true, true, false, false, false, false, false⟩,
        false, true, true, 5000, 30000, true, ""⟩ :
      DiscoveryOptions).CompatibleOptions =
      ⟨Strategy.kP2pPointToPoint, ⟨true, true, false, false, false, false, false⟩,
        false, true, true, 5000, 30000, true, ""⟩) ∧
     ((⟨Strategy.kP2pPointToPoint, ⟨true, true, false, false, false, false, false⟩,
        false, true, true, 5000, 30000, true, ""⟩ :
      DiscoveryOptions).allowed.Count ≠ 1 →
      (⟨Strategy.kP2pPointToPoint, ⟨true, true, false, false, false, false, false⟩,
        false, true, true, 5000, 30000, true, ""⟩ :
      DiscoveryOptions).CompatibleOptions.allowed =
        BooleanMediumSelector.onlyBluetooth)) :=
  ⟨rfl, compatibleOptions_out_of_band _ rfl⟩

/-- C2: for every strategy and medium selector, if `is_out_of_band_connection`
is false then `CompatibleOptions` enables all supported mediums when the
input selector has zero mediums enabled, and returns the options (hence the
medium selector) unchanged when one or more mediums are enabled. -/
theorem compatibleOptions_in_band (o : DiscoveryOptions)
    (h : o.is_out_of_band_connection = false) :
    (o.allowed.Count = 0 →
      (o.CompatibleOptions).allowed = BooleanMediumSelector.allMediums ∧
      (o.CompatibleOptions).allowed.All = true) ∧
    (o.allowed.Count ≠ 0 → o.CompatibleOptions = o) := by
  unfold DiscoveryOptions.CompatibleOptions
  rw [h]
  by_cases hc : o.allowed.Count = 0 <;> simp [hc, allMediums_all]

/-- Witness for C2 at a concrete in-band options value with no medium
enabled. -/
theorem compatibleOptions_in_band_witness :
    (⟨Strategy.kP2pStar, ⟨false, false, false, false, false, false, false⟩,
        false, false, true, 0, 0, false, "uuid"⟩ :
      DiscoveryOptions).is_out_of_band_connection = false ∧
    (((⟨Strategy.kP2pStar, ⟨false, false, false, false, false, false, false⟩,
        false, false, true, 0, 0, false, "uuid"⟩ :
      DiscoveryOptions).allowed.Count = 0 →
      (⟨Strategy.kP2pStar, ⟨false, false, false, false, false, false, false⟩,
        false, false, true, 0, 0, false, "uuid"⟩ :
      DiscoveryOptions).CompatibleOptions.allowed =
        BooleanMediumSelector.allMediums ∧
      (⟨Strategy.kP2pStar, ⟨false, false, false, false, false, false, false⟩,
        false, false, true, 0, 0, false, "uuid"⟩ :
      DiscoveryOptions).CompatibleOptions.allowed.All = true) ∧
     ((⟨Strategy.kP2pStar, ⟨false, false, false, false, false, false, false⟩,
        false, false, true, 0, 0, false, "uuid"⟩ :
      DiscoveryOptions).allowed.Count ≠ 0 →
      (⟨Strategy.kP2pStar, ⟨false, false, false, false, false, false, false⟩,
        false, false, true, 0, 0, false, "uuid"⟩ :
      DiscoveryOptions).CompatibleOptions =
      ⟨Strategy.kP2pStar, ⟨false, false, false, false, false, false, false⟩,
        false, false, true, 0, 0, false, "uuid"⟩)) :=
  ⟨rfl, compatibleOptions_in_band _ rfl⟩

/-- C3: `CompatibleOptions` is idempotent — applying it to its own result
yields the same value as applying it once (and, being a pure function of the
receiver in this embedding, it mutates nothing). -/
theorem compatibleOptions_idempotent (o : DiscoveryOptions) :
    (o.CompatibleOptions).CompatibleOptions = o.CompatibleOptions := by
  by_cases hb : o.is_out_of_band_connection = true
  · by_cases hc : o.allowed.Count = 1
    · simp [DiscoveryOptions.CompatibleOptions, hb, hc]
    · simp [DiscoveryOptions.CompatibleOptions, hb, hc, onlyBluetooth_count]
  · rw [Bool.not_eq_true] at hb
    by_cases hc : o.allowed.Count = 0
    · simp [DiscoveryOptions.CompatibleOptions, hb, hc, allMediums_count]
    · simp [DiscoveryOptions.CompatibleOptions, hb, hc]

/-- C4: `CompatibleOptions` copies every non-medium field unchanged — the
strategy, the low-power flag, bandwidth-upgrade and topology flags,
keep-alive parameters, the out-of-band flag and the fast-advertisement
service UUID; only the medium selector may differ. -/
theorem compatibleOptions_preserves_other_fields (o : DiscoveryOptions) :
    (o.CompatibleOptions).strategy = o.strategy ∧
    (o.CompatibleOptions).low_power = o.low_power ∧
    (o.CompatibleOptions).auto_upgrade_bandwidth = o.auto_upgrade_bandwidth ∧
    (o.CompatibleOptions).enforce_topology_constraints =
      o.enforce_topology_constraints ∧
    (o.CompatibleOptions).keep_alive_interval_millis =
      o.keep_alive_interval_millis ∧
    (o.CompatibleOptions).keep_alive_timeout_millis =
      o.keep_alive_timeout_millis ∧
    (o.CompatibleOptions).is_out_of_band_connection =
      o.is_out_of_band_connection ∧
    (o.CompatibleOptions).fast_advertisement_service_uuid =
      o.fast_advertisement_service_uuid := by
  unfold DiscoveryOptions.CompatibleOptions
  split <;> split <;> simp

/-!
Claims about `PresenceDevice` and `CredentialStorage`.
-/

/-- C5: `GetConnectionInfos` returns a list of exactly one element, a BLE
connection info carrying the Bluetooth MAC address from the metadata
supplied at construction — for either constructor, and in particular for
metadata with MAC address "AA:BB:CC:DD:EE:FF". -/
theorem getConnectionInfos_single_ble (env : Env) (dm : DeviceMotion)
    (md : DeviceMetadata) :
    (PresenceDevice.construct2 env dm md).GetConnectionInfos =
      [ConnectionInfoVariant.ble ⟨md.bluetooth_mac_address⟩] ∧
    (PresenceDevice.construct1 env md).GetConnectionInfos =
      [ConnectionInfoVariant.ble ⟨md.bluetooth_mac_address⟩] ∧
    (PresenceDevice.construct2 env dm md).GetConnectionInfos.length = 1 ∧
    (PresenceDevice.construct2 env dm
        ⟨"AA:BB:CC:DD:EE:FF"⟩).GetConnectionInfos =
      [ConnectionInfoVariant.ble ⟨"AA:BB:CC:DD:EE:FF"⟩] :=
  ⟨rfl, rfl, rfl, rfl⟩

/-- C6: each endpoint id is the fresh draw of `kEndpointIdLength` random
bytes made by its own constructor, so two records built independently — even
from identical metadata and motion — have distinct endpoint ids whenever
their two random draws differ. -/
theorem endpoint_ids_differ (e1 e2 : Env) (dm : DeviceMotion)
    (md : DeviceMetadata)
    (h : e1.randBytesSource kEndpointIdLength ≠
        e2.randBytesSource kEndpointIdLength) :
    (PresenceDevice.construct2 e1 dm md).endpoint_id =
      e1.randBytesSource kEndpointIdLength ∧
    (PresenceDevice.construct2 e2 dm md).endpoint_id =
      e2.randBytesSource kEndpointIdLength ∧
    (PresenceDevice.construct2 e1 dm md).endpoint_id ≠
      (PresenceDevice.construct2 e2 dm md).endpoint_id :=
  ⟨rfl, rfl, h⟩

/-- Witness for C6 at two concrete worlds whose random draws differ. -/
theorem endpoint_ids_differ_witness :
    (Env.mk 10 fun n => List.replicate n 1).randBytesSource
        kEndpointIdLength ≠
      (Env.mk 10 fun n => List.replicate n 2).randBytesSource
        kEndpointIdLength ∧
    (PresenceDevice.construct2 (Env.mk 10 fun n => List.replicate n 1)
        DeviceMotion.neutral ⟨"AA:BB:CC:DD:EE:FF"⟩).endpoint_id ≠
      (PresenceDevice.construct2 (Env.mk 10 fun n => List.replicate n 2)
        DeviceMotion.neutral ⟨"AA:BB:CC:DD:EE:FF"⟩).endpoint_id :=
  ⟨by decide,
   (endpoint_ids_differ (Env.mk 10 fun n => List.replicate n 1)
      (Env.mk 10 fun n => List.replicate n 2) DeviceMotion.neutral
      ⟨"AA:BB:CC:DD:EE:FF"⟩ (by decide)).2.2⟩

/-- C7: a `PresenceDevice` is immutable after construction — every exposed
observation is a pure read that does not depend on the ambient world at
observation time (in particular not on any later clock read), and the
discovery-timestamp observation always returns the single monotonic clock
reading captured by the constructor. -/
theorem presence_device_immutable (e : Env) (dm : DeviceMotion)
    (md : DeviceMetadata) (cur1 cur2 : Env) (obs : DeviceObservation) :
    PresenceDevice.observe cur1 (PresenceDevice.construct2 e dm md) obs =
      PresenceDevice.observe cur2 (PresenceDevice.construct2 e dm md) obs ∧
    PresenceDevice.observe cur1 (PresenceDevice.construct2 e dm md)
        DeviceObservation.discoveryTimestamp =
      ObsValue.time (SystemClock.ElapsedRealtime e) ∧
    PresenceDevice.observe cur1 (PresenceDevice.construct1 e md)
        DeviceObservation.discoveryTimestamp =
      ObsValue.time (SystemClock.ElapsedRealtime e) := by
  cases obs <;> exact ⟨rfl, rfl, rfl⟩

/-- C8: constructing without a device-motion value stores the neutral default
`DeviceMotion()`, and constructing with a supplied motion value stores that
value — the motion field is always initialized. -/
theorem device_motion_initialized (e : Env) (md : DeviceMetadata)
    (dm : DeviceMotion) :
    (PresenceDevice.construct1 e md).device_motion = DeviceMotion.neutral ∧
    (PresenceDevice.construct2 e dm md).device_motion = dm :=
  ⟨rfl, rfl⟩

/-- C9: each of the four `CredentialStorage` facade operations forwards to
the corresponding operation of the injected implementation with exactly the
arguments it received — so its observable behaviour equals the
implementation's — and, run against an implementation that records its
invocations, each facade call produces exactly one invocation carrying those
arguments. -/
theorem credentialStorage_forwards {σ : Type} (cs : CredentialStorage σ)
    (a : String) (ps : List PrivateCredential) (qs : List PublicCredential)
    (t : PublicCredentialType) (sel : CredentialSelector) (cb : Nat)
    (s : σ) :
    (cs.SavePrivateCredentials a ps cb s =
      cs.impl_.SavePrivateCredentials a ps cb s ∧
     cs.SavePublicCredentials a qs t cb s =
      cs.impl_.SavePublicCredentials a qs t cb s ∧
     cs.GetPrivateCredentials sel cb s =
      cs.impl_.GetPrivateCredentials sel cb s ∧
     cs.GetPublicCredentials sel t cb s =
      cs.impl_.GetPublicCredentials sel t cb s) ∧
    ((CredentialStorage.mk recordingImpl).SavePrivateCredentials a ps cb [] =
      [ImplCall.savePrivate a ps cb] ∧
     (CredentialStorage.mk recordingImpl).SavePublicCredentials a qs t cb [] =
      [ImplCall.savePublic a qs t cb] ∧
     (CredentialStorage.mk recordingImpl).GetPrivateCredentials sel cb [] =
      [ImplCall.getPrivate sel cb] ∧
     (CredentialStorage.mk recordingImpl).GetPublicCredentials sel t cb [] =
      [ImplCall.getPublic sel t cb]) :=
  ⟨⟨rfl, rfl, rfl, rfl⟩, ⟨rfl, rfl, rfl, rfl⟩⟩

/-- C10: both constructors are total — for every metadata, motion and world,
construction yields a record whose four fields (timestamp, motion, metadata,
endpoint id) are all initialized, to the construction-time clock reading, the
(given or default) motion, the given metadata, and the fresh random draw; no
partially-constructed record exists. -/
theorem constructors_initialize_all_fields (e : Env) (dm : DeviceMotion)
    (md : DeviceMetadata) :
    PresenceDevice.construct1 e md =
      { discovery_timestamp := e.elapsedRealtime
        device_motion := DeviceMotion.neutral
        device_metadata := md
        endpoint_id := e.randBytesSource kEndpointIdLength } ∧
    PresenceDevice.construct2 e dm md =
      { discovery_timestamp := e.elapsedRealtime
        device_motion := dm
        device_metadata := md
        endpoint_id := e.randBytesSource kEndpointIdLength } :=
  ⟨rfl, rfl⟩

end Nearby
